import Mathlib

/-!
Shallow embedding of the wasm stack-trace symbolication module
(`src/lib.rs` of membrane-io/wasm-stack-trace) and proofs about it.

The module runs on wasm32, so `usize` is 32 bits wide; machine-integer
casts in the source (`as usize`, `as i32`) are modelled as explicit
arithmetic modulo `2 ^ 32`.  The external crates (`object`, `gimli`,
`addr2line`) are treated as black boxes: their observable answers
(the parsed section table, the per-section data, the result of
`Context::from_dwarf`, and the answers of `Context::find_frames`) are
data of the model, and the embedded code consumes those answers exactly
the way `src/lib.rs` does.
-/

namespace StackTrace

/-- `usize` on wasm32 is 32 bits wide; `U32 = 2 ^ 32`. -/
def U32 : Nat := 4294967296

/-- Reinterpret a `u32`/`usize` value as an `i32`, as the cast
`base_offset as i32` in `init` does. -/
def toI32 (n : Nat) : Int :=
  if n % U32 < 2147483648 then ((n % U32 : Nat) : Int)
  else ((n % U32 : Nat) : Int) - (U32 : Int)

/-- One invocation of a host callback: `on_frame` or `on_error`. -/
inductive HostEvent where
  | frameEv (symbol location : String) (line column : Nat)
  | errorEv (message : String)
deriving DecidableEq

/-- Whether a host event is an `on_error` invocation. -/
def HostEvent.isError : HostEvent → Bool
  | HostEvent.errorEv _ => true
  | HostEvent.frameEv _ _ _ _ => false

/-- The function name attached to a frame by addr2line, together with the
observable outcome of `f.demangle()`: `demangled = some s` models successful
demangling to `s`, `demangled = none` models a demangling error, in which
case the source falls back to `f.name.to_string_lossy()` (`rawName`). -/
structure FunctionName where
  rawName : String
  demangled : Option String

/-- The source location attached to a frame by addr2line: optional file
path, optional line, optional column (`u32` values, modelled as `Nat`). -/
structure Location where
  file : Option String
  line : Option Nat
  column : Option Nat

/-- One frame returned by `addr2line::Context::find_frames`. -/
structure Frame where
  function : Option FunctionName
  location : Option Location

/-- Observable behaviour of the frame iterator returned by a successful
lookup: either `next()` fails with an error message, or iteration yields
the given frames in order (innermost first).  The source calls `next()`
at most once before returning, so this captures everything it can see. -/
inductive IterOutcome where
  | iterError (message : String)
  | frames (fs : List Frame)

/-- Observable result of `addr2line`'s `find_frames`: `output` carries the
(possibly failing) lookup output, `load` is the `LookupResult::Load`
variant asking for split DWARF data. -/
inductive LookupResult where
  | output (r : Except String IterOutcome)
  | load

/-- The symbolication context: for the embedding all that matters is the
answer `find_frames` gives for each address. -/
structure Context where
  find_frames : Nat → LookupResult

/-- The data returned by `section.uncompressed_data()`: `borrowed` models
`Cow::Borrowed` (stored uncompressed), `owned` models `Cow::Owned`
(the section had to be decompressed). -/
inductive CowData where
  | borrowed (data : List Nat)
  | owned (data : List Nat)

/-- A section of the parsed wasm container, as the `object` crate exposes
it: its file byte-range (if any) and the result of reading its data. -/
structure WasmSection where
  fileRange : Option (Nat × Nat)
  uncompressedData : Except String CowData

/-- The parsed wasm container: the answer of `section_by_name`. -/
structure ParsedModule where
  section_by_name : String → Option WasmSection

/-- A module image together with the observable answers of the external
crates on it: the result of `object::wasm::WasmFile::parse` and the result
of `addr2line::Context::from_dwarf` on the DWARF data loaded from it. -/
structure ModuleImage where
  parse : Except String ParsedModule
  fromDwarf : Except String Context

/-- The reader over the remote module image: total length and cursor,
both `usize` (wasm32, so reduced modulo `2 ^ 32`). -/
structure ModuleReader where
  len : Nat
  pos : Nat

/-- `std::io::SeekFrom`: `Start` carries a `u64`, `End` and `Current`
carry `i64` values. -/
inductive SeekFrom where
  | Start (pos : Nat)
  | End (pos : Int)
  | Current (pos : Int)

/-- An `i64` cast `as usize` on wasm32: truncation to the low 32 bits,
read as an unsigned value. -/
def i64ToUsize (k : Int) : Nat :=
  (k % (U32 : Int)).toNat

/-- The new cursor computed by `ModuleReader::seek`: `self.pos = match pos
{ Start(p) => p as usize, End(p) => self.len + p as usize, Current(p) =>
self.pos + p as usize }`, with wasm32 wrapping `usize` arithmetic. -/
def seekPos (r : ModuleReader) : SeekFrom → Nat
  | SeekFrom.Start p => p % U32
  | SeekFrom.End k => (r.len + i64ToUsize k) % U32
  | SeekFrom.Current k => (r.pos + i64ToUsize k) % U32

/-- `ModuleReader::seek`: recompute the cursor and return `Ok(self.pos as
u64)`.  No branch produces an error. -/
def ModuleReader.seek (r : ModuleReader) (sf : SeekFrom) :
    ModuleReader × Except String Nat :=
  (⟨r.len, seekPos r sf⟩, Except.ok (seekPos r sf))

/-- The section-loading closure passed to `gimli::Dwarf::load` in
`init_impl`, for one section id: a missing section yields empty data; a
present section yields its bytes when `Cow::Borrowed`, the compressed
error when `Cow::Owned`, and propagates a read error otherwise. -/
def load_dwarf_section (pm : ParsedModule) (id : String) :
    Except String (List Nat) :=
  match pm.section_by_name id with
  | none => Except.ok []
  | some s =>
    match s.uncompressedData with
    | Except.error e => Except.error e
    | Except.ok (CowData.borrowed b) => Except.ok b
    | Except.ok (CowData.owned _) =>
      Except.error ("Compressed section not supported yet")

/-- `gimli::Dwarf::load`: run the loading closure over each requested
section id in order; the first failure aborts the whole load. -/
def dwarf_load (pm : ParsedModule) : List String → Except String (List (List Nat))
  | [] => Except.ok []
  | id :: rest =>
    match load_dwarf_section pm id with
    | Except.error e => Except.error e
    | Except.ok d =>
      match dwarf_load pm rest with
      | Except.error e => Except.error e
      | Except.ok ds => Except.ok (d :: ds)

/-- Result of `init_impl`: success carries the code-section offset and the
freshly built context handed to `set_context`; `err` carries the error
message; `panicked` models the `.unwrap()` on `Context::from_dwarf`
aborting execution when construction fails. -/
inductive InitImplResult where
  | ok (codeOffset : Nat) (ctx : Context)
  | err (message : String)
  | panicked

/-- `init_impl`: parse the container, locate the file offset of the
section named `<code>` (failing with "Code section not found" when the
section or its range is absent), load every requested DWARF section, then
build the context via `Context::from_dwarf(dwarf).unwrap()`.  The
`range.0 as usize` cast truncates the `u64` offset to 32 bits. -/
def init_impl (img : ModuleImage) (ids : List String) : InitImplResult :=
  match img.parse with
  | Except.error e => InitImplResult.err e
  | Except.ok pm =>
    match (pm.section_by_name ("<code>")).bind (fun s => s.fileRange) with
    | none => InitImplResult.err ("Code section not found")
    | some rng =>
      match dwarf_load pm ids with
      | Except.error e => InitImplResult.err e
      | Except.ok _ =>
        match img.fromDwarf with
        | Except.error _ => InitImplResult.panicked
        | Except.ok ctx => InitImplResult.ok (rng.1 % U32) ctx

/-- Outcome of one exported entry point: `ret` carries the host events
emitted during the call (in order), the value returned to the host
(`none` for `address_to_frame`, which returns nothing), and the global
context slot after the call; `panicked` models an aborted call (wasm
trap), which emits nothing and returns nothing. -/
inductive StepOutcome where
  | ret (events : List HostEvent) (value : Option Int) (st : Option Context)
  | panicked (st : Option Context)

/-- The exported `init` entry point: on success `init_impl` has already
installed the new context via `set_context` and the code-section offset is
returned `as i32`; on failure the error is reported once via `on_error`
and `-2` is returned; the context slot is untouched by failing paths. -/
def init (img : ModuleImage) (ids : List String) (st : Option Context) :
    StepOutcome :=
  match init_impl img ids with
  | InitImplResult.ok off ctx =>
    StepOutcome.ret [] (some (toI32 off)) (some ctx)
  | InitImplResult.err m =>
    StepOutcome.ret [HostEvent.errorEv m] (some (-2)) st
  | InitImplResult.panicked => StepOutcome.panicked st

/-- The symbol string passed to `on_frame`: the demangled name when
demangling succeeds, the raw name when it fails, and the empty slice when
the frame has no function at all. -/
def frameSymbol (f : Frame) : String :=
  match f.function with
  | none => ""
  | some fn =>
    match fn.demangled with
    | some d => d
    | none => fn.rawName

/-- The location string passed to `on_frame`: `frame.location.and_then(|l|
l.file)`, or the empty slice when absent. -/
def frameFile (f : Frame) : String :=
  (f.location.bind Location.file).getD ""

/-- The line passed to `on_frame`: `line.unwrap_or(0)`. -/
def frameLine (f : Frame) : Nat :=
  (f.location.bind Location.line).getD 0

/-- The column passed to `on_frame`: `column.unwrap_or(0)`. -/
def frameColumn (f : Frame) : Nat :=
  (f.location.bind Location.column).getD 0

/-- The single `on_frame` invocation `address_to_line_impl` performs for
the frame it picked. -/
def renderFrame (f : Frame) : HostEvent :=
  HostEvent.frameEv (frameSymbol f) (frameFile f) (frameLine f) (frameColumn f)

/-- `address_to_line_impl`: returns the host events it emits itself
(the `on_frame` call on the success path) together with its `Result`.
It fails with "Context not found" when the slot is empty, "Split DWARF
not supported yet" on `LookupResult::Load`, propagates lookup and
iterator errors, emits the first frame and returns `Ok` when the iterator
yields one, and fails with "No frame found" when it yields none. -/
def address_to_line_impl (st : Option Context) (address : Nat) :
    List HostEvent × Except String Unit :=
  match st with
  | none => ([], Except.error ("Context not found"))
  | some ctx =>
    match ctx.find_frames address with
    | LookupResult.load => ([], Except.error ("Split DWARF not supported yet"))
    | LookupResult.output (Except.error e) => ([], Except.error e)
    | LookupResult.output (Except.ok (IterOutcome.iterError e)) =>
      ([], Except.error e)
    | LookupResult.output (Except.ok (IterOutcome.frames [])) =>
      ([], Except.error ("No frame found"))
    | LookupResult.output (Except.ok (IterOutcome.frames (f :: _))) =>
      ([renderFrame f], Except.ok ())

/-- The exported `address_to_frame` entry point: run the impl and report
a failure once via `on_error`; the context slot is never written. -/
def address_to_frame (st : Option Context) (address : Nat) : StepOutcome :=
  match address_to_line_impl st address with
  | (evs, Except.ok _) => StepOutcome.ret evs none st
  | (evs, Except.error m) =>
    StepOutcome.ret (evs ++ [HostEvent.errorEv m]) none st

/-- One host-initiated call to an exported entry point. -/
inductive Op where
  | initOp (img : ModuleImage) (ids : List String)
  | resolveOp (address : Nat)

/-- Dispatch one entry-point call against the current context slot. -/
def step : Op → Option Context → StepOutcome
  | Op.initOp img ids, st => init img ids st
  | Op.resolveOp a, st => address_to_frame st a

/-- The context slot after an entry-point call. -/
def stateAfter : StepOutcome → Option Context
  | StepOutcome.ret _ _ st => st
  | StepOutcome.panicked st => st

/-- The context slot after a sequence of entry-point calls. -/
def run : List Op → Option Context → Option Context
  | [], st => st
  | op :: rest, st => run rest (stateAfter (step op st))

/-! Concrete fixtures used by witness and counterexample theorems. -/

/-- A context whose lookup always yields an empty frame list. -/
def ctxNoFrames : Context :=
  ⟨fun _ => LookupResult.output (Except.ok (IterOutcome.frames []))⟩

/-- A parsed container with no sections at all. -/
def pmEmpty : ParsedModule := ⟨fun _ => none⟩

/-- An image that parses to a container with no sections. -/
def imgNoCode : ModuleImage :=
  ⟨Except.ok pmEmpty, Except.ok ctxNoFrames⟩

/-- A container with a well-formed code section and a compressed
`.debug_info` section. -/
def pmCompressed : ParsedModule :=
  ⟨fun id =>
    if id = "<code>" then
      some ⟨some (8, 40), Except.ok (CowData.borrowed [])⟩
    else if id = ".debug_info" then
      some ⟨none, Except.ok (CowData.owned [0, 1])⟩
    else none⟩

/-- An image whose container carries a compressed debug section. -/
def imgCompressed : ModuleImage :=
  ⟨Except.ok pmCompressed, Except.ok ctxNoFrames⟩

/-- A container with a well-formed code section and nothing else. -/
def pmPlain : ParsedModule :=
  ⟨fun id =>
    if id = "<code>" then some ⟨some (8, 40), Except.ok (CowData.borrowed [])⟩
    else none⟩

/-- An image on which `Context::from_dwarf` fails: reaching it makes
`init_impl` hit the `.unwrap()` and abort. -/
def imgBadDwarf : ModuleImage :=
  ⟨Except.ok pmPlain, Except.error ("construction failed")⟩

/-- A container whose code section starts at file offset `2 ^ 31`. -/
def pmHugeOffset : ParsedModule :=
  ⟨fun id =>
    if id = "<code>" then
      some ⟨some (2147483648, 2147483650), Except.ok (CowData.borrowed [])⟩
    else none⟩

/-- An image with a code-section offset of `2 ^ 31`, on which a successful
`init` returns a negative value. -/
def imgHugeOffset : ModuleImage :=
  ⟨Except.ok pmHugeOffset, Except.ok ctxNoFrames⟩

/-- A container whose code section starts at file offset 42. -/
def pmSmallOffset : ParsedModule :=
  ⟨fun id =>
    if id = "<code>" then some ⟨some (42, 100), Except.ok (CowData.borrowed [])⟩
    else none⟩

/-- An image with a small code-section offset, for the success case. -/
def imgSmallOffset : ModuleImage :=
  ⟨Except.ok pmSmallOffset, Except.ok ctxNoFrames⟩

/-- An innermost frame with full symbol and location data. -/
def frameInner : Frame :=
  ⟨some ⟨"_inner_raw", some "inner"⟩, some ⟨some ("inner.rs"), some 3, some 4⟩⟩

/-- An outer (caller) frame, present only to show it is dropped. -/
def frameOuter : Frame :=
  ⟨some ⟨"_outer_raw", some "outer"⟩, some ⟨some ("outer.rs"), some 9, some 1⟩⟩

/-- A context whose lookup yields two frames, innermost first. -/
def ctxTwoFrames : Context :=
  ⟨fun _ => LookupResult.output (Except.ok (IterOutcome.frames [frameInner, frameOuter]))⟩

/-- A frame whose demangling fails and which carries no location. -/
def frameRawOnly : Frame :=
  ⟨some ⟨"rawsym", none⟩, none⟩

/-- A context whose lookup yields exactly `frameRawOnly`. -/
def ctxRawOnly : Context :=
  ⟨fun _ => LookupResult.output (Except.ok (IterOutcome.frames [frameRawOnly]))⟩

/-! Theorems. -/

/-- C4: with the global context slot unset, `address_to_frame` (resolve)
emits exactly one `on_error` with message "Context not found", emits no
frame, returns nothing, and leaves the slot unset. -/
theorem c4_resolve_without_context (address : Nat) :
    address_to_frame none address =
      StepOutcome.ret [HostEvent.errorEv ("Context not found")] none none := rfl

/-- Witness for C4 at the concrete address 0. -/
theorem c4_resolve_without_context_witness :
    address_to_frame none 0 =
      StepOutcome.ret [HostEvent.errorEv ("Context not found")] none none :=
  c4_resolve_without_context 0

/-- C2: when the parsed container has no section named `<code>`, `init`
emits exactly one `on_error` with message "Code section not found",
returns the failure sentinel `-2`, and leaves the context slot exactly as
it was. -/
theorem c2_missing_code_section (img : ModuleImage) (ids : List String)
    (st : Option Context) (pm : ParsedModule)
    (hp : img.parse = Except.ok pm)
    (hs : pm.section_by_name ("<code>") = none) :
    init img ids st =
      StepOutcome.ret [HostEvent.errorEv ("Code section not found")] (some (-2)) st := by
  simp [init, init_impl, hp, hs]

/-- Witness for C2: a concrete sectionless image with the slot unset. -/
theorem c2_missing_code_section_witness :
    init imgNoCode [] none =
      StepOutcome.ret [HostEvent.errorEv ("Code section not found")] (some (-2)) none :=
  c2_missing_code_section imgNoCode [] none pmEmpty rfl rfl

/-- C1: every `address_to_frame` call emits exactly one host event —
either a single `on_frame` or a single `on_error`, never both and never
neither — and when the context's lookup yields an empty frame list the
call fails with exactly "No frame found" and emits no synthetic frame. -/
theorem c1_resolve_exactly_one_outcome (st : Option Context) (address : Nat) :
    ((∃ s l ln c, address_to_frame st address =
        StepOutcome.ret [HostEvent.frameEv s l ln c] none st) ∨
      (∃ m, address_to_frame st address =
        StepOutcome.ret [HostEvent.errorEv m] none st)) ∧
    (∀ ctx, st = some ctx →
      ctx.find_frames address = LookupResult.output (Except.ok (IterOutcome.frames [])) →
      address_to_frame st address =
        StepOutcome.ret [HostEvent.errorEv ("No frame found")] none st) := by
  cases st with
  | none =>
    refine ⟨Or.inr ⟨"Context not found", rfl⟩, ?_⟩
    intro ctx h
    exact absurd h (by simp)
  | some ctx =>
    cases hff : ctx.find_frames address with
    | load =>
      refine ⟨Or.inr ⟨"Split DWARF not supported yet",
        by simp [address_to_frame, address_to_line_impl, hff]⟩, ?_⟩
      intro c hc hfr
      obtain rfl : ctx = c := by injection hc
      rw [hff] at hfr
      exact absurd hfr (by simp)
    | output r =>
      cases r with
      | error e =>
        refine ⟨Or.inr ⟨e, by simp [address_to_frame, address_to_line_impl, hff]⟩, ?_⟩
        intro c hc hfr
        obtain rfl : ctx = c := by injection hc
        rw [hff] at hfr
        exact absurd hfr (by simp)
      | ok io =>
        cases io with
        | iterError e =>
          refine ⟨Or.inr ⟨e, by simp [address_to_frame, address_to_line_impl, hff]⟩, ?_⟩
          intro c hc hfr
          obtain rfl : ctx = c := by injection hc
          rw [hff] at hfr
          exact absurd hfr (by simp)
        | frames fs =>
          cases fs with
          | nil =>
            refine ⟨Or.inr ⟨"No frame found",
              by simp [address_to_frame, address_to_line_impl, hff]⟩, ?_⟩
            intro c hc hfr
            exact by simp [address_to_frame, address_to_line_impl, hff]
          | cons f rest =>
            refine ⟨Or.inl ⟨frameSymbol f, frameFile f, frameLine f, frameColumn f,
              by simp [address_to_frame, address_to_line_impl, hff, renderFrame]⟩, ?_⟩
            intro c hc hfr
            obtain rfl : ctx = c := by injection hc
            rw [hff] at hfr
            exact absurd hfr (by simp)

/-- Witness for C1 at a concrete context whose lookup yields no frames. -/
theorem c1_resolve_exactly_one_outcome_witness :
    address_to_frame (some ctxNoFrames) 0 =
      StepOutcome.ret [HostEvent.errorEv ("No frame found")] none (some ctxNoFrames) :=
  (c1_resolve_exactly_one_outcome (some ctxNoFrames) 0).2 ctxNoFrames rfl rfl

/-- C8: when the lookup yields one or more frames (innermost first),
resolve emits exactly the first frame and nothing else. -/
theorem c8_first_frame_only (ctx : Context) (address : Nat) (f : Frame)
    (rest : List Frame)
    (h : ctx.find_frames address =
      LookupResult.output (Except.ok (IterOutcome.frames (f :: rest)))) :
    address_to_frame (some ctx) address =
      StepOutcome.ret [renderFrame f] none (some ctx) := by
  simp [address_to_frame, address_to_line_impl, h]

/-- Witness for C8: a lookup with two frames emits only the innermost. -/
theorem c8_first_frame_only_witness :
    address_to_frame (some ctxTwoFrames) 0 =
      StepOutcome.ret [renderFrame frameInner] none (some ctxTwoFrames) :=
  c8_first_frame_only ctxTwoFrames 0 frameInner [frameOuter] rfl

/-- C9: the frame chosen by resolve is rendered with the demangled symbol
when demangling succeeds and the raw name when it fails; the location is
the frame's file path when present and empty otherwise; and the line and
column are exactly 0 whenever the frame carries no line or no column. -/
theorem c9_frame_rendering (ctx : Context) (address : Nat) (f : Frame)
    (rest : List Frame)
    (h : ctx.find_frames address =
      LookupResult.output (Except.ok (IterOutcome.frames (f :: rest)))) :
    ∃ s l ln c, address_to_frame (some ctx) address =
        StepOutcome.ret [HostEvent.frameEv s l ln c] none (some ctx) ∧
      (∀ fn, f.function = some fn →
        (∀ d, fn.demangled = some d → s = d) ∧
        (fn.demangled = none → s = fn.rawName)) ∧
      (f.location.bind Location.file = none → l = "") ∧
      (∀ p, f.location.bind Location.file = some p → l = p) ∧
      (f.location.bind Location.line = none → ln = 0) ∧
      (f.location.bind Location.column = none → c = 0) := by
  refine ⟨frameSymbol f, frameFile f, frameLine f, frameColumn f,
    by simp [address_to_frame, address_to_line_impl, h, renderFrame], ?_, ?_, ?_, ?_, ?_⟩
  · intro fn hfn
    constructor
    · intro d hd
      simp [frameSymbol, hfn, hd]
    · intro hnone
      simp [frameSymbol, hfn, hnone]
  · intro hfile
    simp [frameFile, hfile]
  · intro p hp
    simp [frameFile, hp]
  · intro hline
    simp [frameLine, hline]
  · intro hcol
    simp [frameColumn, hcol]

/-- Witness for C9: a frame whose demangling fails and which has no
location renders as the raw name with empty path and zero line/column. -/
theorem c9_frame_rendering_witness :
    address_to_frame (some ctxRawOnly) 0 =
      StepOutcome.ret [HostEvent.frameEv ("rawsym") ("") 0 0] none (some ctxRawOnly) := by
  obtain ⟨s, l, ln, c, heq, hsym, hfile, _, hline, hcol⟩ :=
    c9_frame_rendering ctxRawOnly 0 frameRawOnly [] rfl
  have hs : s = "rawsym" := (hsym ⟨"rawsym", none⟩ rfl).2 rfl
  have hl : l = "" := hfile rfl
  have hn : ln = 0 := hline rfl
  have hc : c = 0 := hcol rfl
  rw [hs, hl, hn, hc] at heq
  exact heq

/-- When no requested section's data read fails and some requested
section is present but compressed, the DWARF load aborts with the
compressed-section error. -/
theorem dwarf_load_compressed (pm : ParsedModule) (ids : List String)
    (hne : ∀ id ∈ ids, ∀ s, pm.section_by_name id = some s →
      ∀ e, s.uncompressedData ≠ Except.error e)
    (hc : ∃ id ∈ ids, ∃ s d, pm.section_by_name id = some s ∧
      s.uncompressedData = Except.ok (CowData.owned d)) :
    dwarf_load pm ids = Except.error ("Compressed section not supported yet") := by
  induction ids with
  | nil =>
    obtain ⟨id, hmem, _⟩ := hc
    exact absurd hmem (List.not_mem_nil id)
  | cons head tail ih =>
    have htail : (∃ id ∈ tail, ∃ s d, pm.section_by_name id = some s ∧
        s.uncompressedData = Except.ok (CowData.owned d)) →
        dwarf_load pm tail = Except.error ("Compressed section not supported yet") := by
      intro hex
      exact ih (fun id hmem => hne id (List.mem_cons_of_mem head hmem)) hex
    cases hsec : pm.section_by_name head with
    | none =>
      have hex : ∃ id ∈ tail, ∃ s d, pm.section_by_name id = some s ∧
          s.uncompressedData = Except.ok (CowData.owned d) := by
        obtain ⟨id, hmem, s, d, hps, hud⟩ := hc
        rcases List.mem_cons.mp hmem with h1 | h1
        · rw [h1] at hps
          rw [hsec] at hps
          exact absurd hps (by simp)
        · exact ⟨id, h1, s, d, hps, hud⟩
      simp [dwarf_load, load_dwarf_section, hsec, htail hex]
    | some s =>
      cases hud2 : s.uncompressedData with
      | error e =>
        exact absurd hud2 (hne head (List.mem_cons_self head tail) s hsec e)
      | ok cow =>
        cases cow with
        | owned d =>
          simp [dwarf_load, load_dwarf_section, hsec, hud2]
        | borrowed b =>
          have hex : ∃ id ∈ tail, ∃ s2 d, pm.section_by_name id = some s2 ∧
              s2.uncompressedData = Except.ok (CowData.owned d) := by
            obtain ⟨id, hmem, s2, d, hps, hud⟩ := hc
            rcases List.mem_cons.mp hmem with h1 | h1
            · rw [h1] at hps
              rw [hsec] at hps
              obtain rfl : s = s2 := by injection hps
              rw [hud2] at hud
              exact absurd hud (by simp)
            · exact ⟨id, h1, s2, d, hps, hud⟩
          simp [dwarf_load, load_dwarf_section, hsec, hud2, htail hex]

/-- C3: when the container parses, the code section is present, no
requested debug section's read fails, and some requested debug section is
present but compressed, `init` emits exactly one `on_error` with message
"Compressed section not supported yet", returns the failure sentinel `-2`,
and leaves the context slot exactly as it was (so a prior context remains
installed and queryable). -/
theorem c3_compressed_section (img : ModuleImage) (ids : List String)
    (st : Option Context) (pm : ParsedModule) (rng : Nat × Nat)
    (hp : img.parse = Except.ok pm)
    (hcode : (pm.section_by_name ("<code>")).bind (fun s => s.fileRange) = some rng)
    (hne : ∀ id ∈ ids, ∀ s, pm.section_by_name id = some s →
      ∀ e, s.uncompressedData ≠ Except.error e)
    (hc : ∃ id ∈ ids, ∃ s d, pm.section_by_name id = some s ∧
      s.uncompressedData = Except.ok (CowData.owned d)) :
    init img ids st =
      StepOutcome.ret [HostEvent.errorEv ("Compressed section not supported yet")]
        (some (-2)) st := by
  simp [init, init_impl, hp, hcode, dwarf_load_compressed pm ids hne hc]

/-- Witness for C3: an image with a compressed `.debug_info` next to a
valid code section, with a prior context installed, which stays put. -/
theorem c3_compressed_section_witness :
    init imgCompressed [".debug_info"] (some ctxNoFrames) =
      StepOutcome.ret [HostEvent.errorEv ("Compressed section not supported yet")]
        (some (-2)) (some ctxNoFrames) := by
  refine c3_compressed_section imgCompressed [".debug_info"] (some ctxNoFrames)
    pmCompressed (8, 40) rfl rfl ?_ ?_
  · intro id hmem s hs e
    have hid : id = ".debug_info" := List.mem_singleton.mp hmem
    rw [hid] at hs
    have hs2 : some (⟨none, Except.ok (CowData.owned [0, 1])⟩ : WasmSection) = some s := by
      rw [← hs]
      rfl
    obtain rfl : (⟨none, Except.ok (CowData.owned [0, 1])⟩ : WasmSection) = s := by
      injection hs2
    simp
  · exact ⟨".debug_info", List.mem_singleton.mpr rfl,
      ⟨none, Except.ok (CowData.owned [0, 1])⟩, [0, 1], rfl, rfl⟩

/-- C7: `seek(End, k)` sets the cursor to `len + k` and returns it,
`seek(Start, p)` sets it to `p` and returns it, `seek(Current, k)` sets it
to the old cursor plus `k` and returns it — whenever the target position
is representable in a 32-bit `usize` — and `seek` never returns an error
for any argument whatsoever. -/
theorem c7_seek_contract (r : ModuleReader) (hlen : r.len < U32) (hpos : r.pos < U32) :
    (∀ k : Int, 0 ≤ (r.len : Int) + k → (r.len : Int) + k < (U32 : Int) →
      (r.seek (SeekFrom.End k)).1.pos = ((r.len : Int) + k).toNat ∧
      (r.seek (SeekFrom.End k)).2 = Except.ok (((r.len : Int) + k).toNat)) ∧
    (∀ p : Nat, p < U32 →
      (r.seek (SeekFrom.Start p)).1.pos = p ∧
      (r.seek (SeekFrom.Start p)).2 = Except.ok p) ∧
    (∀ k : Int, 0 ≤ (r.pos : Int) + k → (r.pos : Int) + k < (U32 : Int) →
      (r.seek (SeekFrom.Current k)).1.pos = ((r.pos : Int) + k).toNat ∧
      (r.seek (SeekFrom.Current k)).2 = Except.ok (((r.pos : Int) + k).toNat)) ∧
    (∀ sf : SeekFrom, ∃ n : Nat, (r.seek sf).2 = Except.ok n) := by
  refine ⟨?_, ?_, ?_, ?_⟩
  · intro k h1 h2
    have hp : (r.len + i64ToUsize k) % U32 = ((r.len : Int) + k).toNat := by
      simp only [i64ToUsize, U32] at *
      omega
    constructor
    · simp [ModuleReader.seek, seekPos, hp]
    · simp [ModuleReader.seek, seekPos, hp]
  · intro p hlt
    have hp : p % U32 = p := Nat.mod_eq_of_lt hlt
    constructor
    · simp [ModuleReader.seek, seekPos, hp]
    · simp [ModuleReader.seek, seekPos, hp]
  · intro k h1 h2
    have hp : (r.pos + i64ToUsize k) % U32 = ((r.pos : Int) + k).toNat := by
      simp only [i64ToUsize, U32] at *
      omega
    constructor
    · simp [ModuleReader.seek, seekPos, hp]
    · simp [ModuleReader.seek, seekPos, hp]
  · intro sf
    exact ⟨seekPos r sf, rfl⟩

/-- Witness for C7: concrete seeks on a reader of length 100, including a
negative end-relative offset. -/
theorem c7_seek_contract_witness :
    ((⟨100, 0⟩ : ModuleReader).seek (SeekFrom.End (-5))).1.pos = 95 ∧
    ((⟨100, 0⟩ : ModuleReader).seek (SeekFrom.Start 7)).1.pos = 7 ∧
    ((⟨100, 0⟩ : ModuleReader).seek (SeekFrom.Current 3)).1.pos = 3 ∧
    ((⟨100, 0⟩ : ModuleReader).seek (SeekFrom.End (-5))).2 = Except.ok 95 := by
  obtain ⟨hE, hS, hC, _⟩ :=
    c7_seek_contract ⟨100, 0⟩ (by norm_num [U32]) (by norm_num [U32])
  have h1 := hE (-5) (by norm_num) (by norm_num [U32])
  have h2 := hS 7 (by norm_num [U32])
  have h3 := hC 3 (by norm_num) (by norm_num [U32])
  refine ⟨?_, ?_, ?_, ?_⟩
  · rw [h1.1]
    rfl
  · exact h2.1
  · rw [h3.1]
    rfl
  · rw [h1.2]
    rfl

/-- A single entry-point call never empties a non-empty context slot. -/
theorem step_preserves_some (op : Op) (st : Option Context)
    (h : st.isSome = true) : (stateAfter (step op st)).isSome = true := by
  cases op with
  | initOp img ids =>
    cases hi : init_impl img ids with
    | ok off ctx => simp [step, init, hi, stateAfter]
    | err m => simp [step, init, hi, stateAfter, h]
    | panicked => simp [step, init, hi, stateAfter, h]
  | resolveOp a =>
    cases st with
    | none => exact absurd h (by simp)
    | some ctx =>
      cases hff : ctx.find_frames a with
      | load => simp [step, address_to_frame, address_to_line_impl, hff, stateAfter]
      | output r =>
        cases r with
        | error e => simp [step, address_to_frame, address_to_line_impl, hff, stateAfter]
        | ok io =>
          cases io with
          | iterError e =>
            simp [step, address_to_frame, address_to_line_impl, hff, stateAfter]
          | frames fs =>
            cases fs with
            | nil => simp [step, address_to_frame, address_to_line_impl, hff, stateAfter]
            | cons f rest =>
              simp [step, address_to_frame, address_to_line_impl, hff, stateAfter]

/-- C10: once the context slot holds a context it holds some context
forever after — no sequence of `init` and `address_to_frame` calls can
return the slot from the set state to the unset state. -/
theorem c10_context_slot_never_cleared (ops : List Op) (st : Option Context)
    (h : st.isSome = true) : (run ops st).isSome = true := by
  induction ops generalizing st with
  | nil => exact h
  | cons op rest ih =>
    exact ih (stateAfter (step op st)) (step_preserves_some op st h)

/-- Witness for C10: a resolve call and a failing init keep a set slot set. -/
theorem c10_context_slot_never_cleared_witness :
    (run [Op.resolveOp 0, Op.initOp imgNoCode []] (some ctxNoFrames)).isSome = true :=
  c10_context_slot_never_cleared [Op.resolveOp 0, Op.initOp imgNoCode []]
    (some ctxNoFrames) rfl

/-- `init_impl` aborts only when `Context::from_dwarf` failed. -/
theorem init_impl_panicked_from_dwarf (img : ModuleImage) (ids : List String)
    (h : init_impl img ids = InitImplResult.panicked) :
    ∃ e, img.fromDwarf = Except.error e := by
  cases hp : img.parse with
  | error e => simp [init_impl, hp] at h
  | ok pm =>
    cases hcode : (pm.section_by_name ("<code>")).bind (fun s => s.fileRange) with
    | none => simp [init_impl, hp, hcode] at h
    | some rng =>
      cases hd : dwarf_load pm ids with
      | error e => simp [init_impl, hp, hcode, hd] at h
      | ok ds =>
        cases hf : img.fromDwarf with
        | error e => exact ⟨e, rfl⟩
        | ok ctx => simp [init_impl, hp, hcode, hd, hf] at h

/-- C5 counterexample: on an image whose DWARF-context construction fails,
`init` aborts via the `.unwrap()` in `init_impl` — no `on_error` report
crosses the host boundary and no failure sentinel is returned — refuting
the claim that every fallible path, including failure of the debug-info
context construction step itself, is reported through `on_error` and
followed by a sentinel. -/
theorem c5_counterexample_construction_panics :
    init imgBadDwarf [] none = StepOutcome.panicked none := rfl

/-- C5 amended: every fallible path inside `init` and `address_to_frame`,
except failure of the debug-info context construction step (whose
`.unwrap()` aborts the call without reporting), results in exactly one
`on_error` report, with the failure sentinel `-2` returned when the entry
point is `init`; successful calls report no error. -/
theorem c5_single_error_report (op : Op) (st : Option Context) :
    (∃ img ids e, op = Op.initOp img ids ∧ img.fromDwarf = Except.error e ∧
      step op st = StepOutcome.panicked st) ∨
    (∃ evs v st2, step op st = StepOutcome.ret evs v st2 ∧
      ((∃ m, evs.filter HostEvent.isError = [HostEvent.errorEv m] ∧
          (∀ img ids, op = Op.initOp img ids → v = some (-2)) ∧ st2 = st) ∨
        (evs.filter HostEvent.isError = [] ∧
          (∀ a, op = Op.resolveOp a →
            ∃ s l ln c, evs = [HostEvent.frameEv s l ln c]) ∧
          (∀ img ids, op = Op.initOp img ids → evs = [])))) := by
  cases op with
  | initOp img ids =>
    cases hi : init_impl img ids with
    | ok off ctx =>
      refine Or.inr ⟨[], some (toI32 off), some ctx, by simp [step, init, hi], Or.inr ?_⟩
      refine ⟨by simp, ?_, ?_⟩
      · intro a ha
        exact absurd ha (by simp)
      · intro i ids2 hi2
        rfl
    | err m =>
      refine Or.inr ⟨[HostEvent.errorEv m], some (-2), st, by simp [step, init, hi],
        Or.inl ⟨m, ?_, ?_, rfl⟩⟩
      · simp [HostEvent.isError]
      · intro i ids2 hi2
        rfl
    | panicked =>
      obtain ⟨e, he⟩ := init_impl_panicked_from_dwarf img ids hi
      exact Or.inl ⟨img, ids, e, rfl, he, by simp [step, init, hi]⟩
  | resolveOp a =>
    refine Or.inr ?_
    cases st with
    | none =>
      refine ⟨[HostEvent.errorEv ("Context not found")], none, none, rfl,
        Or.inl ⟨"Context not found", ?_, ?_, rfl⟩⟩
      · simp [HostEvent.isError]
      · intro img ids h
        exact absurd h (by simp)
    | some ctx =>
      cases hff : ctx.find_frames a with
      | load =>
        refine ⟨[HostEvent.errorEv ("Split DWARF not supported yet")], none, some ctx,
          by simp [step, address_to_frame, address_to_line_impl, hff],
          Or.inl ⟨"Split DWARF not supported yet", ?_, ?_, rfl⟩⟩
        · simp [HostEvent.isError]
        · intro img ids h
          exact absurd h (by simp)
      | output r =>
        cases r with
        | error e =>
          refine ⟨[HostEvent.errorEv e], none, some ctx,
            by simp [step, address_to_frame, address_to_line_impl, hff],
            Or.inl ⟨e, ?_, ?_, rfl⟩⟩
          · simp [HostEvent.isError]
          · intro img ids h
            exact absurd h (by simp)
        | ok io =>
          cases io with
          | iterError e =>
            refine ⟨[HostEvent.errorEv e], none, some ctx,
              by simp [step, address_to_frame, address_to_line_impl, hff],
              Or.inl ⟨e, ?_, ?_, rfl⟩⟩
            · simp [HostEvent.isError]
            · intro img ids h
              exact absurd h (by simp)
          | frames fs =>
            cases fs with
            | nil =>
              refine ⟨[HostEvent.errorEv ("No frame found")], none, some ctx,
                by simp [step, address_to_frame, address_to_line_impl, hff],
                Or.inl ⟨"No frame found", ?_, ?_, rfl⟩⟩
              · simp [HostEvent.isError]
              · intro img ids h
                exact absurd h (by simp)
            | cons f rest =>
              refine ⟨[renderFrame f], none, some ctx,
                by simp [step, address_to_frame, address_to_line_impl, hff], Or.inr ?_⟩
              refine ⟨by simp [renderFrame, HostEvent.isError], ?_, ?_⟩
              · intro a2 ha
                exact ⟨frameSymbol f, frameFile f, frameLine f, frameColumn f,
                  by simp [renderFrame]⟩
              · intro img ids h
                exact absurd h (by simp)

/-- Witness for the amended C5, instantiated at a resolve call against an
empty slot: the single report is the "Context not found" error. -/
theorem c5_single_error_report_witness :
    ∃ evs v st2, step (Op.resolveOp 0) none = StepOutcome.ret evs v st2 ∧
      evs.filter HostEvent.isError = [HostEvent.errorEv ("Context not found")] := by
  rcases c5_single_error_report (Op.resolveOp 0) none with
    ⟨img, ids, e, hop, _⟩ | ⟨evs, v, st2, heq, hcase⟩
  · exact absurd hop (by simp)
  · refine ⟨evs, v, st2, heq, ?_⟩
    have hevs : StepOutcome.ret evs v st2 =
        StepOutcome.ret [HostEvent.errorEv ("Context not found")] none none := by
      rw [← heq]
      rfl
    obtain rfl : evs = [HostEvent.errorEv ("Context not found")] := by
      injection hevs
    rfl

/-- C6 counterexample: with a code section at file offset `2 ^ 31`,
initialization succeeds (no error is reported and the fresh context is
installed) yet the value returned to the host is the negative integer
`-2147483648`, because the offset is returned `as i32` — refuting the
claim that the sign of the return value alone distinguishes success from
failure for every possible offset value. -/
theorem c6_counterexample_huge_offset :
    init imgHugeOffset [] none =
      StepOutcome.ret [] (some (-2147483648)) (some ctxNoFrames) ∧
    (-2147483648 : Int) < 0 :=
  ⟨rfl, by norm_num⟩

/-- C6 amended: on success `init` returns the code-section offset
reinterpreted as a 32-bit signed integer — non-negative and equal to the
offset whenever the offset is below `2 ^ 31`, but wrapped to a negative
value otherwise — and on failure it returns the negative sentinel `-2`;
the sign therefore distinguishes success from failure exactly for offsets
below `2 ^ 31`. -/
theorem c6_return_value_sign (img : ModuleImage) (ids : List String)
    (st : Option Context) :
    (∀ off ctx, init_impl img ids = InitImplResult.ok off ctx →
      init img ids st = StepOutcome.ret [] (some (toI32 off)) (some ctx) ∧
        (off < 2147483648 → toI32 off = (off : Int) ∧ 0 ≤ toI32 off)) ∧
    (∀ m, init_impl img ids = InitImplResult.err m →
      init img ids st = StepOutcome.ret [HostEvent.errorEv m] (some (-2)) st ∧
        (-2 : Int) < 0) := by
  constructor
  · intro off ctx h
    refine ⟨by simp [init, h], ?_⟩
    intro hoff
    have hmod : off % U32 = off := Nat.mod_eq_of_lt (by simp only [U32]; omega)
    constructor
    · simp only [toI32, hmod]
      rw [if_pos hoff]
    · simp only [toI32, hmod]
      rw [if_pos hoff]
      positivity
  · intro m h
    exact ⟨by simp [init, h], by norm_num⟩

/-- Witness for the amended C6: a successful init over a code section at
offset 42 returns exactly 42, a non-negative value. -/
theorem c6_return_value_sign_witness :
    init imgSmallOffset [] none =
      StepOutcome.ret [] (some (toI32 42)) (some ctxNoFrames) ∧
      toI32 42 = (42 : Int) ∧ 0 ≤ toI32 42 := by
  obtain ⟨h1, h2⟩ :=
    (c6_return_value_sign imgSmallOffset [] none).1 42 ctxNoFrames rfl
  exact ⟨h1, h2 (by norm_num)⟩

end StackTrace
